import Mathlib

/-!
Shallow embedding of the github-review-405 tool (src/main.js, src/error.js).

The tool recovers comments of a stuck GitHub pending review: it resolves the
authenticated user, scans the PR's reviews for the single pending review by
that user, snapshots the review's comments to a JSON file, deletes the pending
review after a countdown, and re-posts each comment as a standalone PR comment,
recording a `new_id` on each successfully posted comment and re-saving the file.

External effects (network calls, filesystem writes) are modelled by an `Env`
record of oracles, and `main` is a pure function from configuration and
environment to a trace of attempted effects plus a result (`Except Err Unit`,
mirroring the JS function either returning normally or throwing an `AppError`).
-/

namespace GithubReview405

/-- A PR review as seen by the review-listing scan in `main` (src/main.js
lines 137-146): its id, its author's account id (`review.user.id`) and its
state string. -/
structure Review where
  id : Nat
  userId : Nat
  state : String
deriving DecidableEq, Repr

/-- A review comment (snapshot-file schema: `id, commit_id, path, position,
body, new_id?`). `new_id` is absent until the comment has been replayed as a
standalone comment (src/main.js line 232). -/
structure Comment where
  id : Nat
  commit_id : String
  path : String
  position : Nat
  body : String
  new_id : Option Nat := none
deriving DecidableEq, Repr

/-- The error value of src/error.js and src/main.js: an `AppError` carries a
message and an optional underlying cause (`extra`); errors raised by the
external collaborators (network, filesystem) are modelled as `external`. -/
inductive Err where
  | appError (message : String) (extra : Option Err)
  | external (tag : String)

/-- One attempted external effect of a run: the GitHub API calls and the
snapshot-file writes, in the order `main` issues them. A `save` event records
the path and the comment list handed to `saveComments` verbatim. -/
inductive Event where
  | fetchUser
  | listReviews
  | fetchComments (reviewId : Nat)
  | save (path : String) (contents : List Comment)
  | deleteReview (reviewId : Nat)
  | postComment (c : Comment)

/-- Run configuration after CLI parsing: `org`/`repo`/`pr` from `--repo` and
`--pr`, plus the optional `--save` and `--load` values (`none` when the flag
is absent). -/
structure Config where
  org : String
  repo : String
  pr : Nat
  save : Option String := none
  load : Option String := none
deriving Repr

/-- Oracles for the external world: each field gives the outcome the
corresponding collaborator would produce in this run (`none` = the call
throws). `writeOk n` tells whether the n-th file write of the run succeeds;
`post c` gives the created comment's id when posting `c` succeeds. -/
structure Env where
  userId : Option Nat
  reviews : Option (List Review)
  fetchComments : Nat → Option (List Comment)
  writeOk : Nat → Bool
  deleteOk : Bool
  post : Comment → Option Nat
  loadFile : String → Option (List Comment)

/-- JS truthiness of an optional number (`if (reviewId)`, `if (!comment.new_id)`
in src/main.js): `undefined` and `0` are falsy. -/
def truthyNum : Option Nat → Bool
  | none => false
  | some n => decide (n ≠ 0)

/-- JS falsiness of an optional string (`if (!saveFile)` in src/main.js):
`undefined` and the empty string are falsy. -/
def falsyOptStr : Option String → Bool
  | none => true
  | some s => decide (s = "")

/-- JS truthiness of an optional string (`else if (opt.options.load)`). -/
def truthyOptStr (o : Option String) : Bool := !falsyOptStr o

/-- The review-listing scan of src/main.js lines 137-146: walk every review of
every page; a review is relevant when its author is the caller and its state is
`PENDING`; a second relevant review raises `More than one pending review?`;
otherwise the single relevant review's id (or `none`) is produced. The
accumulator is the mutable `reviewId` variable (`none` = `undefined`). -/
def scanReviews (userId : Nat) : List Review → Option Nat → Except Err (Option Nat)
  | [], acc => .ok acc
  | r :: rs, acc =>
    if r.userId = userId ∧ r.state = "PENDING" then
      match acc with
      | some _ => .error (.appError "More than one pending review?" none)
      | none => scanReviews userId rs (some r.id)
    else scanReviews userId rs acc

/-- The default snapshot-file name `{org}_{repo}_{pr}_{reviewId}.json`
(src/main.js line 157). -/
def deriveSaveFile (org repo : String) (pr rid : Nat) : String :=
  org ++ "_" ++ repo ++ "_" ++ toString pr ++ "_" ++ toString rid ++ ".json"

/-- Snapshot-path resolution of src/main.js lines 154-163: an explicit truthy
`--save` value wins; otherwise the name is derived from the review id when a
pending review was found, else the `--load` path, else the `_sync` fallback. -/
def resolveSaveFile (cfg : Config) (reviewId : Option Nat) : String :=
  if falsyOptStr cfg.save then
    if truthyNum reviewId then
      deriveSaveFile cfg.org cfg.repo cfg.pr (reviewId.getD 0)
    else if truthyOptStr cfg.load then cfg.load.getD ""
    else cfg.org ++ "_" ++ cfg.repo ++ "_" ++ toString cfg.pr ++ "_sync.json"
  else cfg.save.getD ""

/-- The effect of one replay-loop iteration on one comment (src/main.js lines
212-236): a comment with a truthy `new_id` is left alone; otherwise posting is
attempted and on success `new_id` is set to the created comment's id, on
failure the comment is unchanged. -/
def updComment (post : Comment → Option Nat) (c : Comment) : Comment :=
  if truthyNum c.new_id then c
  else
    match post c with
    | some nid => { c with new_id := some nid }
    | none => c

/-- The replay loop of src/main.js lines 212-236: for each comment in order,
skip it when `new_id` is truthy, otherwise attempt `createComment` (recorded
as a `postComment` event whether it succeeds or fails); a failure only leaves
the comment without `new_id` and the loop continues. Returns the updated
comment list and the list of attempted post events. -/
def replay (post : Comment → Option Nat) : List Comment → List Comment × List Event
  | [] => ([], [])
  | c :: cs =>
    let rest := replay post cs
    if truthyNum c.new_id then (c :: rest.1, rest.2)
    else (updComment post c :: rest.1, Event.postComment c :: rest.2)

/-- The tail of `main` shared by both comment sources (src/main.js lines
211-239): run the replay loop, then re-save the snapshot file once
(`saveComments`, which wraps a write failure in
`Failed to save comments into a file`). `widx` counts the file writes already
attempted in this run. -/
def finishReplay (env : Env) (saveFile : String) (ev : List Event)
    (comments : List Comment) (widx : Nat) : List Event × Except Err Unit :=
  let r := replay env.post comments
  let ev := ev ++ r.2 ++ [Event.save saveFile r.1]
  if env.writeOk widx then (ev, .ok ())
  else (ev, .error (.appError "Failed to save comments into a file" (some (.external "fs"))))

/-- The core of `main` from src/main.js lines 117-240 (after CLI validation):
fetch the authenticated user; scan the paginated review list; resolve the
snapshot path; then either fetch-and-save the pending review's comments
(when a pending review was found and `--load` is absent) or load them from the
`--load` file, or fail with `No pending review...`; dismiss the pending review
if one was found; replay the comments and re-save the snapshot. Returns the
trace of attempted effects and the run's outcome. -/
def main (cfg : Config) (env : Env) : List Event × Except Err Unit :=
  match env.userId with
  | none =>
      ([Event.fetchUser],
       .error (.appError "Failed to fetch user info" (some (.external "network"))))
  | some userId =>
    match (match env.reviews with
           | none => Except.error (Err.external "network")
           | some rs => scanReviews userId rs none) with
    | .error e =>
        ([Event.fetchUser, Event.listReviews],
         .error (.appError ("Failed to fetch list of reviews for PR " ++ toString cfg.pr)
           (some e)))
    | .ok reviewId =>
      let saveFile := resolveSaveFile cfg reviewId
      let ev := [Event.fetchUser, Event.listReviews]
      if truthyNum reviewId && cfg.load.isNone then
        let rid := reviewId.getD 0
        match env.fetchComments rid with
        | none =>
            (ev ++ [Event.fetchComments rid],
             .error (.appError
               ("Failed to fetch a list of comments for the review " ++ toString rid)
               (some (.external "network"))))
        | some comments =>
            let ev := ev ++ [Event.fetchComments rid, Event.save saveFile comments]
            if env.writeOk 0 then
              let ev := ev ++ [Event.deleteReview rid]
              if env.deleteOk then
                finishReplay env saveFile ev comments 1
              else
                (ev, .error (.appError ("Failed to dismiss review " ++ toString rid)
                  (some (.external "network"))))
            else
              (ev, .error (.appError "Failed to save comments into a file"
                (some (.external "fs"))))
      else if truthyOptStr cfg.load then
        match env.loadFile (cfg.load.getD "") with
        | none =>
            (ev, .error (.appError
              ("Failed to load comments from file " ++ cfg.load.getD "") none))
        | some comments =>
            if truthyNum reviewId then
              let rid := reviewId.getD 0
              let ev := ev ++ [Event.deleteReview rid]
              if env.deleteOk then
                finishReplay env saveFile ev comments 0
              else
                (ev, .error (.appError ("Failed to dismiss review " ++ toString rid)
                  (some (.external "network"))))
            else
              finishReplay env saveFile ev comments 0
      else
        (ev, .error (.appError
          ("No pending review for PR " ++ toString cfg.pr ++ " and no --load option specified")
          none))

/-- Process exit code of `run` in src/main.js lines 246-264: any uncaught
`AppError` leads to `process.exit(1)`, a normal return ends the process with
status 0. -/
def run (cfg : Config) (env : Env) : Nat :=
  match (main cfg env).2 with
  | .ok _ => 0
  | .error _ => 1

/-! ### JSON serialization of the snapshot file

`saveComments` writes `JSON.stringify(comments)` and the `--load` branch reads
the file back with `JSON.parse`. The serialized form is modelled structurally:
a snapshot is the JSON array of the comments' objects, with the `new_id` field
present exactly when it was set (JS `JSON.stringify` drops fields holding
`undefined`). -/

/-- Structural JSON values, the image of `JSON.stringify`/`JSON.parse`. -/
inductive Json where
  | num (n : Nat)
  | str (s : String)
  | arr (elems : List Json)
  | obj (fields : List (String × Json))

/-- The JSON object `JSON.stringify` produces for one comment: the five
mandatory snapshot fields, plus `new_id` only when set. -/
def encodeComment (c : Comment) : Json :=
  .obj ([("id", Json.num c.id), ("commit_id", Json.str c.commit_id),
         ("path", Json.str c.path), ("position", Json.num c.position),
         ("body", Json.str c.body)] ++
        (match c.new_id with
         | some n => [("new_id", Json.num n)]
         | none => []))

/-- The JSON array `JSON.stringify` produces for the comment list. -/
def encodeComments (cs : List Comment) : Json :=
  .arr (cs.map encodeComment)

/-- First field of the object with the given key, as JS property lookup. -/
def lookupField : List (String × Json) → String → Option Json
  | [], _ => none
  | (k, v) :: rest, key => if k = key then some v else lookupField rest key

/-- Read a JSON value as a number. -/
def asNum : Option Json → Option Nat
  | some (.num n) => some n
  | _ => none

/-- Read a JSON value as a string. -/
def asStr : Option Json → Option String
  | some (.str s) => some s
  | _ => none

/-- Recover a comment from its JSON object: all five mandatory fields must be
present with the right shapes; `new_id` is optional. -/
def decodeComment : Json → Option Comment
  | .obj fs =>
    match asNum (lookupField fs "id"), asStr (lookupField fs "commit_id"),
          asStr (lookupField fs "path"), asNum (lookupField fs "position"),
          asStr (lookupField fs "body") with
    | some i, some ci, some p, some pos, some b =>
        some { id := i, commit_id := ci, path := p, position := pos, body := b,
               new_id := asNum (lookupField fs "new_id") }
    | _, _, _, _, _ => none
  | _ => none

/-- Recover the comment list from the snapshot file's JSON array. -/
def decodeComments : Json → Option (List Comment)
  | .arr xs => xs.mapM decodeComment
  | _ => none

/-! ### Auxiliary definitions for the theorems -/

/-- The scan's filter: a review is relevant when it is authored by the caller
and in `PENDING` state. -/
def pendingBy (uid : Nat) (r : Review) : Bool :=
  decide (r.userId = uid ∧ r.state = "PENDING")

/-- Modelled from the spec (claim C5): does a `save` occur in the trace before
the next `postComment` attempt (false when the trace ends with no further
save)? -/
def saveBeforeNextPost : List Event → Bool
  | [] => false
  | Event.save _ _ :: _ => true
  | Event.postComment _ :: _ => false
  | _ :: rest => saveBeforeNextPost rest

/-- Modelled from the spec (claim C5): `snapshotAfterEveryAttempt tr` holds
when, after every `postComment` attempt in `tr`, the snapshot file is saved
again before the next post attempt — the spec's "re-written after every
individual replay attempt". The code instead re-saves once after the whole
pass, so this fails on any run with two posted comments. -/
def snapshotAfterEveryAttempt : List Event → Bool
  | [] => true
  | Event.postComment _ :: rest => saveBeforeNextPost rest && snapshotAfterEveryAttempt rest
  | _ :: rest => snapshotAfterEveryAttempt rest

/-! ### Concrete sample runs (used by witnesses and counterexamples) -/

/-- A fetched pending-review comment. -/
def c10 : Comment :=
  { id := 10, commit_id := "0123456abcd", path := "src/a.js", position := 3, body := "first" }

/-- A second fetched pending-review comment. -/
def c11 : Comment :=
  { id := 11, commit_id := "0123456abcd", path := "src/b.js", position := 7, body := "second" }

/-- A comment stored in a load file. -/
def c12 : Comment :=
  { id := 12, commit_id := "fedcba98765", path := "src/c.js", position := 2, body := "third" }

/-- Concrete configuration: PR 1234 of avtolstoy/test, no explicit save or
load path. -/
def cfgA : Config := { org := "avtolstoy", repo := "test", pr := 1234 }

/-- Environment: the caller (user 42) has exactly one pending review (555)
holding `c10` and `c11`; every write, the deletion and every post succeed. -/
def envA : Env :=
  { userId := some 42
  , reviews := some [{ id := 555, userId := 42, state := "PENDING" }]
  , fetchComments := fun _ => some [c10, c11]
  , writeOk := fun _ => true
  , deleteOk := true
  , post := fun c => some (c.id + 100)
  , loadFile := fun _ => none }

/-- As `envA`, but every file write fails. -/
def envAW : Env := { envA with writeOk := fun _ => false }

/-- As `envA`, but posting `c10` fails while posting `c11` succeeds. -/
def envF : Env :=
  { envA with post := fun c => if c.id = 10 then none else some (c.id + 100) }

/-- Environment with two pending reviews by the caller. -/
def envC : Env :=
  { envA with
    reviews := some [{ id := 555, userId := 42, state := "PENDING" },
                     { id := 556, userId := 42, state := "PENDING" }] }

/-- Environment with no pending review by the caller: one pending review by
someone else and one non-pending review by the caller. -/
def envD : Env :=
  { envA with
    reviews := some [{ id := 555, userId := 43, state := "PENDING" },
                     { id := 556, userId := 42, state := "APPROVED" }] }

/-- The snapshot contents a fully successful `envA` replay pass saves. -/
def savedA : List Comment := (replay envA.post [c10, c11]).1

/-- Configuration of a second run loading the snapshot of the `envA` run. -/
def cfgL : Config :=
  { org := "avtolstoy", repo := "test", pr := 1234,
    load := some "avtolstoy_test_1234_555.json" }

/-- Environment of the second run: the pending review is gone (run 1 deleted
it) and the load file holds the snapshot run 1 saved. -/
def envL : Env :=
  { userId := some 42
  , reviews := some []
  , fetchComments := fun _ => none
  , writeOk := fun _ => true
  , deleteOk := true
  , post := fun c => some (c.id + 100)
  , loadFile := fun s => if s = "avtolstoy_test_1234_555.json" then some savedA else none }

/-- Configuration with a load path supplied (claim C7). -/
def cfgB : Config := { org := "o", repo := "r", pr := 1, load := some "saved.json" }

/-- Environment for the `--load` run of claim C7: the caller still has a
pending review (9), and the load file holds one unposted comment. -/
def envB : Env :=
  { userId := some 7
  , reviews := some [{ id := 9, userId := 7, state := "PENDING" }]
  , fetchComments := fun _ => none
  , writeOk := fun _ => true
  , deleteOk := true
  , post := fun c => some (c.id + 100)
  , loadFile := fun s => if s = "saved.json" then some [c12] else none }

/-! ### Review-scan characterization -/

/-- With no relevant review in the remaining pages, the scan returns its
accumulator. -/
theorem scanReviews_of_no_match (uid : Nat) (rs : List Review) (acc : Option Nat)
    (h : (rs.filter (pendingBy uid)).length = 0) :
    scanReviews uid rs acc = .ok acc := by
  induction rs generalizing acc with
  | nil => rfl
  | cons r rs ih =>
      by_cases hm : r.userId = uid ∧ r.state = "PENDING"
      · simp [pendingBy, List.filter_cons, hm] at h
      · simp only [pendingBy, List.filter_cons, decide_eq_true_eq, hm, if_false] at h
        simp only [scanReviews, hm, if_false]
        exact ih acc h

/-- Once a match is in the accumulator, any further relevant review makes the
scan fail with the ambiguity error. -/
theorem scanReviews_err_of_match (uid : Nat) (rs : List Review) (a : Nat)
    (h : 1 ≤ (rs.filter (pendingBy uid)).length) :
    scanReviews uid rs (some a) =
      .error (.appError "More than one pending review?" none) := by
  induction rs with
  | nil => simp at h
  | cons r rs ih =>
      by_cases hm : r.userId = uid ∧ r.state = "PENDING"
      · simp [scanReviews, hm]
      · simp only [pendingBy, List.filter_cons, decide_eq_true_eq, hm, if_false] at h
        simp only [scanReviews, hm, if_false]
        exact ih h

/-- Two (or more) relevant reviews anywhere in the listed pages make the scan
fail with the ambiguity error: the scan keeps walking the remaining pages
after a first match, so a later second match is always detected. -/
theorem scanReviews_err_of_two (uid : Nat) (rs : List Review)
    (h : 2 ≤ (rs.filter (pendingBy uid)).length) :
    scanReviews uid rs none =
      .error (.appError "More than one pending review?" none) := by
  induction rs with
  | nil => simp at h
  | cons r rs ih =>
      by_cases hm : r.userId = uid ∧ r.state = "PENDING"
      · have hpb : pendingBy uid r = true := by simp [pendingBy, hm]
        have h1 : 1 ≤ (rs.filter (pendingBy uid)).length := by
          rw [List.filter_cons_of_pos hpb, List.length_cons] at h
          omega
        simp only [scanReviews, hm, if_true]
        exact scanReviews_err_of_match uid rs r.id h1
      · simp only [pendingBy, List.filter_cons, decide_eq_true_eq, hm, if_false] at h
        simp only [scanReviews, hm, if_false]
        exact ih h

/-- The ambiguity error is the only error the scan itself raises. -/
theorem scanReviews_error_shape (uid : Nat) (rs : List Review) (acc : Option Nat)
    (e : Err) (h : scanReviews uid rs acc = .error e) :
    e = .appError "More than one pending review?" none := by
  induction rs generalizing acc with
  | nil => simp [scanReviews] at h
  | cons r rs ih =>
      by_cases hm : r.userId = uid ∧ r.state = "PENDING"
      · match acc with
        | some a =>
            simp only [scanReviews, hm, if_true] at h
            cases h
            rfl
        | none =>
            simp only [scanReviews, hm, if_true] at h
            exact ih _ h
      · simp only [scanReviews, hm, if_false] at h
        exact ih _ h

/-! ### Snapshot round-trip -/

/-- One comment's JSON object decodes back to the comment, whether or not
`new_id` is present. -/
theorem decodeComment_encodeComment (c : Comment) :
    decodeComment (encodeComment c) = some c := by
  obtain ⟨i, ci, p, pos, b, n⟩ := c
  cases n <;> simp [encodeComment, decodeComment, lookupField, asNum, asStr]

/-- The snapshot file round-trips: decoding the serialized comment list gives
back a list equal in content and order. -/
theorem decodeComments_encodeComments (L : List Comment) :
    decodeComments (encodeComments L) = some L := by
  induction L with
  | nil => rfl
  | cons c cs ih =>
      simp only [encodeComments, decodeComments, List.map_cons, List.mapM_cons,
        decodeComment_encodeComment c, Option.pure_def, Option.bind_eq_bind,
        Option.some_bind] at ih ⊢
      rw [ih]
      rfl

/-! ### Replay characterization -/

/-- One pass of the replay loop maps `updComment` over the list and attempts a
post (in original order) exactly for the comments whose `new_id` is not yet
truthy. -/
theorem replay_eq (post : Comment → Option Nat) (L : List Comment) :
    replay post L =
      (L.map (updComment post),
       (L.filter (fun c => !truthyNum c.new_id)).map Event.postComment) := by
  induction L with
  | nil => rfl
  | cons c cs ih =>
      simp only [replay, ih, List.map_cons, List.filter_cons]
      by_cases h : truthyNum c.new_id
      · simp [h, updComment]
      · simp only [Bool.not_eq_true] at h
        simp [h]

/-- A comment whose posting fails (or is skipped) is unchanged. -/
theorem updComment_of_post_none (post : Comment → Option Nat) (c : Comment)
    (h : post c = none) : updComment post c = c := by
  unfold updComment
  by_cases ht : truthyNum c.new_id
  · simp [ht]
  · simp [ht, h]

/-! ### Unfolding the runs of `main`, path by path -/

/-- Fetch path of `main`, snapshot write succeeding: the snapshot of the
fetched comments is written right after the fetch, the pending review is then
deleted, the replay attempts follow, and the snapshot is finally re-written
with the updated comments; when the final write also succeeds the run returns
normally. -/
theorem main_fetch_path_success (cfg : Config) (env : Env) (uid rid : Nat)
    (rs : List Review) (L : List Comment)
    (hu : env.userId = some uid)
    (hr : env.reviews = some rs)
    (hscan : scanReviews uid rs none = .ok (some rid))
    (hrid : rid ≠ 0)
    (hload : cfg.load = none)
    (hfetch : env.fetchComments rid = some L)
    (hw0 : env.writeOk 0 = true)
    (hd : env.deleteOk = true) :
    (main cfg env).1 =
      [Event.fetchUser, Event.listReviews, Event.fetchComments rid,
       Event.save (resolveSaveFile cfg (some rid)) L, Event.deleteReview rid]
        ++ (replay env.post L).2
        ++ [Event.save (resolveSaveFile cfg (some rid)) (replay env.post L).1] ∧
    (env.writeOk 1 = true → (main cfg env).2 = .ok ()) := by
  have htr : truthyNum (some rid) = true := by simp [truthyNum, hrid]
  constructor
  · by_cases hw1 : env.writeOk 1 <;>
      simp [main, hu, hr, hscan, hload, htr, hfetch, finishReplay, hw0, hd, hw1]
  · intro hw1
    simp [main, hu, hr, hscan, hload, htr, hfetch, finishReplay, hw0, hd, hw1]

/-- Fetch path of `main`, snapshot write failing: the run stops with the
distinct `Failed to save comments into a file` error, and the trace ends at
the failed write — in particular the deletion of the pending review is never
attempted. -/
theorem main_fetch_path_writeFail (cfg : Config) (env : Env) (uid rid : Nat)
    (rs : List Review) (L : List Comment)
    (hu : env.userId = some uid)
    (hr : env.reviews = some rs)
    (hscan : scanReviews uid rs none = .ok (some rid))
    (hrid : rid ≠ 0)
    (hload : cfg.load = none)
    (hfetch : env.fetchComments rid = some L)
    (hw0 : env.writeOk 0 = false) :
    main cfg env =
      ([Event.fetchUser, Event.listReviews, Event.fetchComments rid,
        Event.save (resolveSaveFile cfg (some rid)) L],
       .error (.appError "Failed to save comments into a file"
         (some (.external "fs")))) := by
  have htr : truthyNum (some rid) = true := by simp [truthyNum, hrid]
  simp [main, hu, hr, hscan, hload, htr, hfetch, hw0]

/-- Load path of `main` with no pending review found: after identity
resolution and review listing, the comments come from the `--load` file, no
comment fetch and no review deletion happens, the loaded comments are
replayed and the snapshot is re-written once; when that write succeeds the
run returns normally. -/
theorem main_load_path (cfg : Config) (env : Env) (uid : Nat)
    (rs : List Review) (f : String) (L : List Comment)
    (hu : env.userId = some uid)
    (hr : env.reviews = some rs)
    (hscan : scanReviews uid rs none = .ok none)
    (hload : cfg.load = some f)
    (hf : f ≠ "")
    (hfile : env.loadFile f = some L) :
    (main cfg env).1 =
      [Event.fetchUser, Event.listReviews]
        ++ (replay env.post L).2
        ++ [Event.save (resolveSaveFile cfg none) (replay env.post L).1] ∧
    (env.writeOk 0 = true → (main cfg env).2 = .ok ()) := by
  have hts : truthyOptStr (some f) = true := by
    simp [truthyOptStr, falsyOptStr, hf]
  constructor
  · by_cases hw0 : env.writeOk 0 <;>
      simp [main, hu, hr, hscan, hload, hts, hfile, finishReplay, truthyNum, hw0]
  · intro hw0
    simp [main, hu, hr, hscan, hload, hts, hfile, finishReplay, truthyNum, hw0]

/-- Fetch path of `main`, snapshot write succeeding but deletion failing: the
run stops at the failed deletion with the `Failed to dismiss review` error. -/
theorem main_fetch_path_deleteFail (cfg : Config) (env : Env) (uid rid : Nat)
    (rs : List Review) (L : List Comment)
    (hu : env.userId = some uid)
    (hr : env.reviews = some rs)
    (hscan : scanReviews uid rs none = .ok (some rid))
    (hrid : rid ≠ 0)
    (hload : cfg.load = none)
    (hfetch : env.fetchComments rid = some L)
    (hw0 : env.writeOk 0 = true)
    (hd : env.deleteOk = false) :
    main cfg env =
      ([Event.fetchUser, Event.listReviews, Event.fetchComments rid,
        Event.save (resolveSaveFile cfg (some rid)) L, Event.deleteReview rid],
       .error (.appError ("Failed to dismiss review " ++ toString rid)
         (some (.external "network")))) := by
  have htr : truthyNum (some rid) = true := by simp [truthyNum, hrid]
  simp [main, hu, hr, hscan, hload, htr, hfetch, hw0, hd]

/-- Whatever the write and delete outcomes, the fetch path always begins with
user fetch, review listing, comment fetch, and the snapshot write of the
fetched comments. -/
theorem main_fetch_take4 (cfg : Config) (env : Env) (uid rid : Nat)
    (rs : List Review) (L : List Comment)
    (hu : env.userId = some uid)
    (hr : env.reviews = some rs)
    (hscan : scanReviews uid rs none = .ok (some rid))
    (hrid : rid ≠ 0)
    (hload : cfg.load = none)
    (hfetch : env.fetchComments rid = some L) :
    (main cfg env).1.take 4 =
      [Event.fetchUser, Event.listReviews, Event.fetchComments rid,
       Event.save (resolveSaveFile cfg (some rid)) L] := by
  cases hw0 : env.writeOk 0 with
  | false =>
      rw [main_fetch_path_writeFail cfg env uid rid rs L hu hr hscan hrid hload hfetch hw0]
      rfl
  | true =>
      cases hd : env.deleteOk with
      | false =>
          rw [main_fetch_path_deleteFail cfg env uid rid rs L hu hr hscan hrid hload hfetch
            hw0 hd]
          rfl
      | true =>
          have h := (main_fetch_path_success cfg env uid rid rs L hu hr hscan hrid hload hfetch
            hw0 hd).1
          rw [h]
          rfl

/-- When the listed pages contain two or more pending reviews by the caller,
`main` stops right after the listing step, surfacing the ambiguity error
wrapped in the listing-failure error. -/
theorem main_two_pending (cfg : Config) (env : Env) (uid : Nat) (rs : List Review)
    (hu : env.userId = some uid)
    (hr : env.reviews = some rs)
    (h2 : 2 ≤ (rs.filter (pendingBy uid)).length) :
    main cfg env =
      ([Event.fetchUser, Event.listReviews],
       .error (.appError ("Failed to fetch list of reviews for PR " ++ toString cfg.pr)
         (some (.appError "More than one pending review?" none)))) := by
  simp [main, hu, hr, scanReviews_err_of_two uid rs h2]

/-- When no pending review by the caller exists and `--load` is absent,
`main` stops right after the listing step with the `No pending review` error. -/
theorem main_no_pending_no_load (cfg : Config) (env : Env) (uid : Nat)
    (rs : List Review)
    (hu : env.userId = some uid)
    (hr : env.reviews = some rs)
    (hscan : scanReviews uid rs none = .ok none)
    (hload : cfg.load = none) :
    main cfg env =
      ([Event.fetchUser, Event.listReviews],
       .error (.appError
         ("No pending review for PR " ++ toString cfg.pr ++ " and no --load option specified")
         none)) := by
  simp [main, hu, hr, hscan, hload, truthyNum, truthyOptStr, falsyOptStr]

/-- `updComment` touches no field but `new_id`. -/
theorem updComment_frame (post : Comment → Option Nat) (c : Comment) :
    (updComment post c).id = c.id ∧
    (updComment post c).commit_id = c.commit_id ∧
    (updComment post c).path = c.path ∧
    (updComment post c).position = c.position ∧
    (updComment post c).body = c.body := by
  unfold updComment
  by_cases ht : truthyNum c.new_id
  · simp [ht]
  · cases hp : post c <;> simp [ht, hp]

/-- The replay loop issues only `postComment` calls: in particular it never
writes the snapshot file, deletes a review, or fetches anything. -/
theorem replay_events_are_posts (post : Comment → Option Nat) (L : List Comment) :
    ∀ e ∈ (replay post L).2, ∃ c, e = Event.postComment c := by
  rw [replay_eq]
  intro e he
  simp only [List.mem_map] at he
  obtain ⟨c, -, rfl⟩ := he
  exact ⟨c, rfl⟩

/-- Truthiness of `new_id` after one replay iteration, for a post oracle that
only hands out nonzero ids: the comment ends up marked exactly when it was
already marked or its post succeeded. -/
theorem truthyNum_updComment (post : Comment → Option Nat) (c : Comment)
    (hz : ∀ n, post c = some n → n ≠ 0) :
    truthyNum (updComment post c).new_id =
      (truthyNum c.new_id || (post c).isSome) := by
  unfold updComment
  by_cases ht : truthyNum c.new_id
  · simp [ht]
  · cases hp : post c with
    | none => simp [ht, hp]
    | some n =>
        have hn := hz n hp
        rw [if_neg ht]
        simp [truthyNum, hn]

/-- Replaying a list whose comments are all marked does nothing: no comment
changes and no post is attempted. -/
theorem replay_all_truthy (post : Comment → Option Nat) (L : List Comment)
    (h : ∀ c ∈ L, truthyNum c.new_id = true) :
    replay post L = (L, []) := by
  induction L with
  | nil => rfl
  | cons c cs ih =>
      have hc := h c (by simp)
      have ih' := ih (fun x hx => h x (by simp [hx]))
      simp [replay, hc, ih']

/-- After a fully successful replay pass (every unmarked comment's post
succeeded, with a nonzero id), every comment in the saved list is marked. -/
theorem replay_marks_all (post : Comment → Option Nat) (L : List Comment)
    (h : ∀ c ∈ L, truthyNum c.new_id = true ∨ ∃ n, post c = some n ∧ n ≠ 0) :
    ∀ c ∈ (replay post L).1, truthyNum c.new_id = true := by
  rw [replay_eq]
  intro c' hc'
  simp only [List.mem_map] at hc'
  obtain ⟨c, hc, rfl⟩ := hc'
  rcases h c hc with ht | ⟨n, hp, hn⟩
  · unfold updComment
    simp [ht]
  · unfold updComment
    by_cases ht : truthyNum c.new_id
    · simp [ht]
    · rw [if_neg ht, hp]
      simp [truthyNum, hn]

/-- Filtering a mapped list is mapping the filtered list. -/
theorem filter_of_map {α β : Type} (g : α → β) (p : β → Bool) (l : List α) :
    (l.map g).filter p = (l.filter (fun a => p (g a))).map g := by
  induction l with
  | nil => rfl
  | cons a l ih =>
      by_cases h : p (g a) <;> simp [List.filter_cons, h, ih]

/-- Mapping a function that fixes every member is the identity. -/
theorem map_self_of_mem {α : Type} (f : α → α) (l : List α)
    (h : ∀ a ∈ l, f a = a) : l.map f = l := by
  induction l with
  | nil => rfl
  | cons a l ih =>
      simp [h a (by simp), ih (fun x hx => h x (by simp [hx]))]

/-- Two pointwise-equal filters agree. -/
theorem filter_congr_of_mem {α : Type} (p q : α → Bool) (l : List α)
    (h : ∀ a ∈ l, p a = q a) : l.filter p = l.filter q := by
  induction l with
  | nil => rfl
  | cons a l ih =>
      have ha := h a (by simp)
      have ih' := ih (fun x hx => h x (by simp [hx]))
      by_cases hp : p a
      · rw [List.filter_cons_of_pos hp, List.filter_cons_of_pos (ha ▸ hp), ih']
      · have hq : ¬q a = true := fun hq => hp (ha ▸ hq)
        rw [List.filter_cons_of_neg hp, List.filter_cons_of_neg hq, ih']

/-! ### Claim theorems -/

/-- Claim C1: whenever a pending review is found and `--load` is not given,
the snapshot of all fetched comments is written, verbatim, before the deletion
of the pending review is attempted; if that write fails, the run raises the
distinct `Failed to save comments into a file` error and the deletion never
executes. -/
theorem snapshot_written_before_dismantle (cfg : Config) (env : Env)
    (uid rid : Nat) (rs : List Review) (L : List Comment)
    (hu : env.userId = some uid)
    (hr : env.reviews = some rs)
    (hscan : scanReviews uid rs none = .ok (some rid))
    (hrid : rid ≠ 0)
    (hload : cfg.load = none)
    (hfetch : env.fetchComments rid = some L) :
    (env.writeOk 0 = true →
      ∃ tl, (main cfg env).1 =
        Event.fetchUser :: Event.listReviews :: Event.fetchComments rid ::
          Event.save (resolveSaveFile cfg (some rid)) L :: Event.deleteReview rid :: tl) ∧
    (env.writeOk 0 = false →
      (main cfg env).2 =
        .error (.appError "Failed to save comments into a file" (some (.external "fs"))) ∧
      ∀ n, Event.deleteReview n ∉ (main cfg env).1) := by
  constructor
  · intro hw0
    cases hd : env.deleteOk with
    | true =>
        refine ⟨(replay env.post L).2
          ++ [Event.save (resolveSaveFile cfg (some rid)) (replay env.post L).1], ?_⟩
        rw [(main_fetch_path_success cfg env uid rid rs L hu hr hscan hrid hload hfetch
          hw0 hd).1]
        rfl
    | false =>
        refine ⟨[], ?_⟩
        rw [main_fetch_path_deleteFail cfg env uid rid rs L hu hr hscan hrid hload hfetch
          hw0 hd]
  · intro hw0
    rw [main_fetch_path_writeFail cfg env uid rid rs L hu hr hscan hrid hload hfetch hw0]
    refine ⟨rfl, ?_⟩
    intro n
    simp

/-- Claim C4: when review listing yields two or more pending reviews authored
by the caller — wherever they sit in the paginated list, so in particular when
the second match is only seen after the first — the run fails with a fatal
error right after the listing step: no file write, no review deletion and no
comment posting occurs. -/
theorem two_pending_fatal_before_effects (cfg : Config) (env : Env) (uid : Nat)
    (rs : List Review)
    (hu : env.userId = some uid)
    (hr : env.reviews = some rs)
    (h2 : 2 ≤ (rs.filter (pendingBy uid)).length) :
    scanReviews uid rs none = .error (.appError "More than one pending review?" none) ∧
    (∃ e, (main cfg env).2 = .error e) ∧
    (main cfg env).1 = [Event.fetchUser, Event.listReviews] ∧
    (∀ p c, Event.save p c ∉ (main cfg env).1) ∧
    (∀ n, Event.deleteReview n ∉ (main cfg env).1) ∧
    (∀ c, Event.postComment c ∉ (main cfg env).1) := by
  have hm := main_two_pending cfg env uid rs hu hr h2
  refine ⟨scanReviews_err_of_two uid rs h2,
    ⟨.appError ("Failed to fetch list of reviews for PR " ++ toString cfg.pr)
      (some (.appError "More than one pending review?" none)), by rw [hm]⟩,
    by rw [hm], ?_, ?_, ?_⟩
  · intro p c
    rw [hm]
    simp
  · intro n
    rw [hm]
    simp
  · intro c
    rw [hm]
    simp

/-- Claim C6: when review listing yields no pending review by the caller and
no load path is given, the run fails with the `No pending review` fatal error
right after the listing step, before any network mutation: no review deletion
and no comment posting occurs. -/
theorem no_pending_no_load_fatal (cfg : Config) (env : Env) (uid : Nat)
    (rs : List Review)
    (hu : env.userId = some uid)
    (hr : env.reviews = some rs)
    (h0 : (rs.filter (pendingBy uid)).length = 0)
    (hload : cfg.load = none) :
    (main cfg env).2 =
      .error (.appError
        ("No pending review for PR " ++ toString cfg.pr ++ " and no --load option specified")
        none) ∧
    (main cfg env).1 = [Event.fetchUser, Event.listReviews] ∧
    (∀ n, Event.deleteReview n ∉ (main cfg env).1) ∧
    (∀ c, Event.postComment c ∉ (main cfg env).1) := by
  have hscan := scanReviews_of_no_match uid rs none h0
  have hm := main_no_pending_no_load cfg env uid rs hu hr hscan hload
  refine ⟨by rw [hm], by rw [hm], ?_, ?_⟩
  · intro n
    rw [hm]
    simp
  · intro c
    rw [hm]
    simp

/-- Claim C9: when no explicit save path is supplied and a pending review with
nonzero id `rid` is found, the snapshot path is derived deterministically as
`{org}_{repo}_{pr}_{rid}.json`, and that is the path the snapshot write of the
fetched comments uses. -/
theorem default_snapshot_path (cfg : Config) (env : Env) (uid rid : Nat)
    (rs : List Review) (L : List Comment)
    (hu : env.userId = some uid)
    (hr : env.reviews = some rs)
    (hscan : scanReviews uid rs none = .ok (some rid))
    (hrid : rid ≠ 0)
    (hsave : cfg.save = none)
    (hload : cfg.load = none)
    (hfetch : env.fetchComments rid = some L) :
    resolveSaveFile cfg (some rid) =
      cfg.org ++ "_" ++ cfg.repo ++ "_" ++ toString cfg.pr ++ "_" ++ toString rid ++ ".json" ∧
    (main cfg env).1.take 4 =
      [Event.fetchUser, Event.listReviews, Event.fetchComments rid,
       Event.save
         (cfg.org ++ "_" ++ cfg.repo ++ "_" ++ toString cfg.pr ++ "_" ++ toString rid ++ ".json")
         L] := by
  have hres : resolveSaveFile cfg (some rid) =
      cfg.org ++ "_" ++ cfg.repo ++ "_" ++ toString cfg.pr ++ "_" ++ toString rid ++ ".json" := by
    simp [resolveSaveFile, falsyOptStr, hsave, truthyNum, hrid, deriveSaveFile]
  exact ⟨hres, hres ▸ main_fetch_take4 cfg env uid rid rs L hu hr hscan hrid hload hfetch⟩

/-- Claim C10: with more than one pending review by the caller, the ambiguity
error is raised inside the review-listing block, so the run surfaces the
`Failed to fetch list of reviews for PR {pr}` error carrying the ambiguity
error as its underlying cause, not the ambiguity error itself. -/
theorem ambiguity_error_wrapped (cfg : Config) (env : Env) (uid : Nat)
    (rs : List Review)
    (hu : env.userId = some uid)
    (hr : env.reviews = some rs)
    (h2 : 2 ≤ (rs.filter (pendingBy uid)).length) :
    (main cfg env).2 =
      .error (.appError ("Failed to fetch list of reviews for PR " ++ toString cfg.pr)
        (some (.appError "More than one pending review?" none))) := by
  rw [main_two_pending cfg env uid rs hu hr h2]

/-- Claim C2: replaying a comment list twice — the second run loading the
snapshot produced by a fully successful first run — posts zero additional
comments: the first run marks every comment with a `new_id`, so the second
run's trace contains no create-comment call at all. -/
theorem replay_twice_idempotent (cfg1 cfg2 : Config) (env1 env2 : Env)
    (uid1 uid2 rid : Nat) (rs1 rs2 : List Review) (f : String) (L : List Comment)
    (hu1 : env1.userId = some uid1)
    (hr1 : env1.reviews = some rs1)
    (hscan1 : scanReviews uid1 rs1 none = .ok (some rid))
    (hrid : rid ≠ 0)
    (hload1 : cfg1.load = none)
    (hfetch : env1.fetchComments rid = some L)
    (hw0 : env1.writeOk 0 = true)
    (hd : env1.deleteOk = true)
    (hw1 : env1.writeOk 1 = true)
    (hsucc : ∀ c ∈ L, truthyNum c.new_id = true ∨ ∃ n, env1.post c = some n ∧ n ≠ 0)
    (hu2 : env2.userId = some uid2)
    (hr2 : env2.reviews = some rs2)
    (hscan2 : scanReviews uid2 rs2 none = .ok none)
    (hload2 : cfg2.load = some f)
    (hf : f ≠ "")
    (hfile : env2.loadFile f = some ((replay env1.post L).1)) :
    (main cfg1 env1).2 = .ok () ∧
    (main cfg2 env2).1 =
      [Event.fetchUser, Event.listReviews,
       Event.save (resolveSaveFile cfg2 none) ((replay env1.post L).1)] ∧
    (∀ c, Event.postComment c ∉ (main cfg2 env2).1) := by
  have h1 := main_fetch_path_success cfg1 env1 uid1 rid rs1 L hu1 hr1 hscan1 hrid hload1
    hfetch hw0 hd
  have hmarks := replay_marks_all env1.post L hsucc
  have hskip := replay_all_truthy env2.post ((replay env1.post L).1) hmarks
  have h2 := main_load_path cfg2 env2 uid2 rs2 f ((replay env1.post L).1) hu2 hr2 hscan2
    hload2 hf hfile
  have htr : (main cfg2 env2).1 =
      [Event.fetchUser, Event.listReviews,
       Event.save (resolveSaveFile cfg2 none) ((replay env1.post L).1)] := by
    rw [h2.1, hskip]
    simp
  refine ⟨h1.2 hw1, htr, ?_⟩
  intro c
  rw [htr]
  simp

/-- Claim C3: a failure while posting one comment is non-fatal — every comment
without a truthy `new_id` is attempted in the original order regardless of
earlier failures, a failing comment is kept unchanged (its `new_id` stays
absent), the run still exits with code 0, and a later replay of the saved list
attempts exactly the comments whose post previously failed. -/
theorem post_failure_nonfatal (cfg : Config) (env : Env) (uid rid : Nat)
    (rs : List Review) (L : List Comment) (post2 : Comment → Option Nat)
    (hu : env.userId = some uid)
    (hr : env.reviews = some rs)
    (hscan : scanReviews uid rs none = .ok (some rid))
    (hrid : rid ≠ 0)
    (hload : cfg.load = none)
    (hfetch : env.fetchComments rid = some L)
    (hw0 : env.writeOk 0 = true)
    (hd : env.deleteOk = true)
    (hw1 : env.writeOk 1 = true)
    (hz : ∀ c n, env.post c = some n → n ≠ 0) :
    (replay env.post L).2 =
      (L.filter (fun c => !truthyNum c.new_id)).map Event.postComment ∧
    (replay env.post L).1 = L.map (updComment env.post) ∧
    (∀ c ∈ L, env.post c = none → updComment env.post c = c) ∧
    run cfg env = 0 ∧
    (replay post2 (replay env.post L).1).2 =
      (L.filter (fun c => !truthyNum c.new_id && (env.post c).isNone)).map
        Event.postComment := by
  have hpred : ∀ c ∈ L, (!truthyNum (updComment env.post c).new_id) =
      (!truthyNum c.new_id && (env.post c).isNone) := by
    intro c _
    rw [truthyNum_updComment env.post c (hz c)]
    cases hp : env.post c <;> cases ht : truthyNum c.new_id <;> simp [hp, ht]
  have hfix : ∀ c ∈ L.filter (fun c => !truthyNum c.new_id && (env.post c).isNone),
      updComment env.post c = c := by
    intro c hc
    rw [List.mem_filter] at hc
    have hno : env.post c = none := by
      rcases hc with ⟨-, hb⟩
      rw [Bool.and_eq_true] at hb
      exact Option.isNone_iff_eq_none.mp hb.2
    exact updComment_of_post_none env.post c hno
  refine ⟨by rw [replay_eq], by rw [replay_eq], ?_, ?_, ?_⟩
  · intro c _ hno
    exact updComment_of_post_none env.post c hno
  · have hok := (main_fetch_path_success cfg env uid rid rs L hu hr hscan hrid hload
      hfetch hw0 hd).2 hw1
    simp [run, hok]
  · calc (replay post2 (replay env.post L).1).2
        = ((L.map (updComment env.post)).filter (fun c => !truthyNum c.new_id)).map
            Event.postComment := by rw [replay_eq, replay_eq]
      _ = ((L.filter (fun c => !truthyNum (updComment env.post c).new_id)).map
            (updComment env.post)).map Event.postComment := by
              rw [filter_of_map]
      _ = ((L.filter (fun c => !truthyNum c.new_id && (env.post c).isNone)).map
            (updComment env.post)).map Event.postComment := by
              rw [filter_congr_of_mem _ _ L hpred]
      _ = (L.filter (fun c => !truthyNum c.new_id && (env.post c).isNone)).map
            Event.postComment := by
              rw [map_self_of_mem _ _ hfix]

/-- Claim C5 counterexample: in a concrete fully successful run with two
fetched comments, the trace has the two post attempts back to back with no
snapshot write in between — the snapshot file is NOT re-written after every
individual replay attempt, only once after the fetch and once after the whole
pass. -/
theorem snapshot_not_rewritten_each_attempt :
    (main cfgA envA).1 =
      [Event.fetchUser, Event.listReviews, Event.fetchComments 555,
       Event.save "avtolstoy_test_1234_555.json" [c10, c11], Event.deleteReview 555,
       Event.postComment c10, Event.postComment c11,
       Event.save "avtolstoy_test_1234_555.json"
         [{ c10 with new_id := some 110 }, { c11 with new_id := some 111 }]] ∧
    snapshotAfterEveryAttempt (main cfgA envA).1 = false := by
  constructor <;> rfl

/-- Claim C5 amended: during replay the snapshot file is rewritten exactly
once, after the full replay pass (in addition to the write after the fetch);
the replay pass itself performs no snapshot write, so a crash mid-replay loses
the `new_id` records of every comment posted in that pass. -/
theorem snapshot_rewritten_once_after_pass (cfg : Config) (env : Env)
    (uid rid : Nat) (rs : List Review) (L : List Comment)
    (hu : env.userId = some uid)
    (hr : env.reviews = some rs)
    (hscan : scanReviews uid rs none = .ok (some rid))
    (hrid : rid ≠ 0)
    (hload : cfg.load = none)
    (hfetch : env.fetchComments rid = some L)
    (hw0 : env.writeOk 0 = true)
    (hd : env.deleteOk = true) :
    (main cfg env).1 =
      [Event.fetchUser, Event.listReviews, Event.fetchComments rid,
       Event.save (resolveSaveFile cfg (some rid)) L, Event.deleteReview rid]
        ++ (replay env.post L).2
        ++ [Event.save (resolveSaveFile cfg (some rid)) (replay env.post L).1] ∧
    (∀ p c, Event.save p c ∉ (replay env.post L).2) := by
  refine ⟨(main_fetch_path_success cfg env uid rid rs L hu hr hscan hrid hload hfetch
    hw0 hd).1, ?_⟩
  intro p c hmem
  obtain ⟨c', hc'⟩ := replay_events_are_posts env.post L _ hmem
  exact Event.noConfusion hc'

/-- Claim C7 counterexample: with `--load` given and a pending review present,
the run still resolves the identity (step 1), still lists the reviews
(step 2), and still dismantles the pending review (step 4) — none of these
steps is skipped by `--load`. -/
theorem load_does_not_skip_locating :
    (main cfgB envB).1 =
      [Event.fetchUser, Event.listReviews, Event.deleteReview 9,
       Event.postComment c12,
       Event.save "o_r_1_9.json" [{ c12 with new_id := some 112 }]] ∧
    Event.fetchUser ∈ (main cfgB envB).1 ∧
    Event.listReviews ∈ (main cfgB envB).1 ∧
    Event.deleteReview 9 ∈ (main cfgB envB).1 := by
  have h : (main cfgB envB).1 =
      [Event.fetchUser, Event.listReviews, Event.deleteReview 9,
       Event.postComment c12,
       Event.save "o_r_1_9.json" [{ c12 with new_id := some 112 }]] := rfl
  refine ⟨h, ?_, ?_, ?_⟩ <;> rw [h] <;> simp

/-- Claim C7 amended: with a load path given, the comment-snapshot fetch is
bypassed and replay resumes from the loaded file's state; identity resolution
and review listing still execute, and dismantling is skipped exactly because
no pending review is found — in which case no comment fetch and no deletion
occurs and the loaded comments are replayed. -/
theorem load_path_resumes_from_file (cfg : Config) (env : Env) (uid : Nat)
    (rs : List Review) (f : String) (L : List Comment)
    (hu : env.userId = some uid)
    (hr : env.reviews = some rs)
    (hscan : scanReviews uid rs none = .ok none)
    (hload : cfg.load = some f)
    (hf : f ≠ "")
    (hfile : env.loadFile f = some L) :
    (main cfg env).1 =
      [Event.fetchUser, Event.listReviews] ++ (replay env.post L).2
        ++ [Event.save (resolveSaveFile cfg none) (replay env.post L).1] ∧
    (∀ n, Event.fetchComments n ∉ (main cfg env).1) ∧
    (∀ n, Event.deleteReview n ∉ (main cfg env).1) ∧
    (env.writeOk 0 = true → (main cfg env).2 = .ok ()) := by
  have h := main_load_path cfg env uid rs f L hu hr hscan hload hf hfile
  refine ⟨h.1, ?_, ?_, h.2⟩
  · intro n hmem
    rw [h.1] at hmem
    rcases List.mem_append.mp hmem with hmem1 | hmem2
    · rcases List.mem_append.mp hmem1 with hmem3 | hmem4
      · simp only [List.mem_cons, List.not_mem_nil, or_false] at hmem3
        rcases hmem3 with h1 | h1 <;> exact Event.noConfusion h1
      · obtain ⟨c', hc'⟩ := replay_events_are_posts env.post L _ hmem4
        exact Event.noConfusion hc'
    · simp only [List.mem_singleton] at hmem2
      exact Event.noConfusion hmem2
  · intro n hmem
    rw [h.1] at hmem
    rcases List.mem_append.mp hmem with hmem1 | hmem2
    · rcases List.mem_append.mp hmem1 with hmem3 | hmem4
      · simp only [List.mem_cons, List.not_mem_nil, or_false] at hmem3
        rcases hmem3 with h1 | h1 <;> exact Event.noConfusion h1
      · obtain ⟨c', hc'⟩ := replay_events_are_posts env.post L _ hmem4
        exact Event.noConfusion hc'
    · simp only [List.mem_singleton] at hmem2
      exact Event.noConfusion hmem2

/-- Claim C8: operations leave every comment field except `new_id` unchanged —
the replay pass is a map of `updComment`, which preserves the five data
fields — and the snapshot written right after the fetch holds the fetched
list verbatim, whose serialized form deserializes back to a list equal in
content and order. -/
theorem comments_frame_and_snapshot_roundtrip (cfg : Config) (env : Env)
    (uid rid : Nat) (rs : List Review) (L : List Comment)
    (hu : env.userId = some uid)
    (hr : env.reviews = some rs)
    (hscan : scanReviews uid rs none = .ok (some rid))
    (hrid : rid ≠ 0)
    (hload : cfg.load = none)
    (hfetch : env.fetchComments rid = some L) :
    ((replay env.post L).1 = L.map (updComment env.post) ∧
     ∀ c, (updComment env.post c).id = c.id ∧
          (updComment env.post c).commit_id = c.commit_id ∧
          (updComment env.post c).path = c.path ∧
          (updComment env.post c).position = c.position ∧
          (updComment env.post c).body = c.body) ∧
    decodeComments (encodeComments L) = some L ∧
    (main cfg env).1.take 4 =
      [Event.fetchUser, Event.listReviews, Event.fetchComments rid,
       Event.save (resolveSaveFile cfg (some rid)) L] :=
  ⟨⟨by rw [replay_eq], fun c => updComment_frame env.post c⟩,
    decodeComments_encodeComments L,
    main_fetch_take4 cfg env uid rid rs L hu hr hscan hrid hload hfetch⟩

/-! ### Witnesses: the claim theorems applied to the concrete sample runs -/

/-- Claim C1 witness: in the concrete run whose snapshot write fails, the run
ends with the distinct save error (and, by C1, the deletion never ran). -/
theorem snapshot_written_before_dismantle_witness :
    (main cfgA envAW).2 =
      .error (.appError "Failed to save comments into a file" (some (.external "fs"))) :=
  ((snapshot_written_before_dismantle cfgA envAW 42 555
    [{ id := 555, userId := 42, state := "PENDING" }] [c10, c11]
    rfl rfl rfl (by decide) rfl rfl).2 rfl).1

/-- Claim C2 witness: the concrete second run loading the snapshot of the
fully successful first run posts nothing. -/
theorem replay_twice_idempotent_witness :
    (main cfgL envL).1 =
      [Event.fetchUser, Event.listReviews,
       Event.save (resolveSaveFile cfgL none) ((replay envA.post [c10, c11]).1)] :=
  (replay_twice_idempotent cfgA cfgL envA envL 42 42 555
    [{ id := 555, userId := 42, state := "PENDING" }] [] "avtolstoy_test_1234_555.json"
    [c10, c11]
    rfl rfl rfl (by decide) rfl rfl rfl rfl rfl
    (fun c _ => Or.inr ⟨c.id + 100, rfl, by omega⟩)
    rfl rfl rfl rfl (by decide) rfl).2.1

/-- Claim C3 witness: the concrete run where posting `c10` fails still exits
with code 0. -/
theorem post_failure_nonfatal_witness : run cfgA envF = 0 :=
  (post_failure_nonfatal cfgA envF 42 555
    [{ id := 555, userId := 42, state := "PENDING" }] [c10, c11]
    (fun c => some (c.id + 100))
    rfl rfl rfl (by decide) rfl rfl rfl rfl rfl
    (by
      intro c n h
      by_cases hc : c.id = 10
      · simp [envF, envA, hc] at h
      · simp [envF, envA, hc] at h
        omega)).2.2.2.1

/-- Claim C4 witness: with two concrete pending reviews by the caller, the run
stops right after the listing step. -/
theorem two_pending_fatal_before_effects_witness :
    (main cfgA envC).1 = [Event.fetchUser, Event.listReviews] :=
  (two_pending_fatal_before_effects cfgA envC 42
    [{ id := 555, userId := 42, state := "PENDING" },
     { id := 556, userId := 42, state := "PENDING" }]
    rfl rfl (by decide)).2.2.1

/-- Claim C5 (amended) witness: the concrete successful run saves the snapshot
once after the fetch and once after the whole replay pass. -/
theorem snapshot_rewritten_once_after_pass_witness :
    (main cfgA envA).1 =
      [Event.fetchUser, Event.listReviews, Event.fetchComments 555,
       Event.save (resolveSaveFile cfgA (some 555)) [c10, c11], Event.deleteReview 555]
        ++ (replay envA.post [c10, c11]).2
        ++ [Event.save (resolveSaveFile cfgA (some 555)) (replay envA.post [c10, c11]).1] :=
  (snapshot_rewritten_once_after_pass cfgA envA 42 555
    [{ id := 555, userId := 42, state := "PENDING" }] [c10, c11]
    rfl rfl rfl (by decide) rfl rfl rfl rfl).1

/-- Claim C6 witness: with no concrete pending review by the caller and no
load path, the run stops right after the listing step. -/
theorem no_pending_no_load_fatal_witness :
    (main cfgA envD).1 = [Event.fetchUser, Event.listReviews] :=
  (no_pending_no_load_fatal cfgA envD 42
    [{ id := 555, userId := 43, state := "PENDING" },
     { id := 556, userId := 42, state := "APPROVED" }]
    rfl rfl (by decide) rfl).2.1

/-- Claim C7 (amended) witness: the concrete `--load` run with no pending
review fetches nothing, deletes nothing, and replays the loaded comments. -/
theorem load_path_resumes_from_file_witness :
    (main cfgL envL).1 =
      [Event.fetchUser, Event.listReviews] ++ (replay envL.post savedA).2
        ++ [Event.save (resolveSaveFile cfgL none) (replay envL.post savedA).1] :=
  (load_path_resumes_from_file cfgL envL 42 [] "avtolstoy_test_1234_555.json" savedA
    rfl rfl rfl rfl (by decide) rfl).1

/-- Claim C8 witness: the concrete run writes the fetched comments verbatim as
its first snapshot. -/
theorem comments_frame_and_snapshot_roundtrip_witness :
    (main cfgA envA).1.take 4 =
      [Event.fetchUser, Event.listReviews, Event.fetchComments 555,
       Event.save (resolveSaveFile cfgA (some 555)) [c10, c11]] :=
  (comments_frame_and_snapshot_roundtrip cfgA envA 42 555
    [{ id := 555, userId := 42, state := "PENDING" }] [c10, c11]
    rfl rfl rfl (by decide) rfl rfl).2.2

/-- Claim C9 witness: the concrete run derives the documented default
snapshot path. -/
theorem default_snapshot_path_witness :
    resolveSaveFile cfgA (some 555) = "avtolstoy_test_1234_555.json" := by
  have h := (default_snapshot_path cfgA envA 42 555
    [{ id := 555, userId := 42, state := "PENDING" }] [c10, c11]
    rfl rfl rfl (by decide) rfl rfl rfl).1
  rw [h]
  rfl

/-- Claim C10 witness: the concrete two-pending-reviews run surfaces the
wrapped listing error, with the ambiguity error as its cause. -/
theorem ambiguity_error_wrapped_witness :
    (main cfgA envC).2 =
      .error (.appError "Failed to fetch list of reviews for PR 1234"
        (some (.appError "More than one pending review?" none))) := by
  have h := ambiguity_error_wrapped cfgA envC 42
    [{ id := 555, userId := 42, state := "PENDING" },
     { id := 556, userId := 42, state := "PENDING" }]
    rfl rfl (by decide)
  rw [h]
  rfl

end GithubReview405
